import Mathlib

/-!
Shallow embedding of the decloud validator-kit sources
(`src/config.py` and `src/decloud/cli.py`) and proofs of the
specification claims about them.

Python dicts are embedded as association lists in insertion order;
Python `None` becomes `Option.none`; machine integers are `Int`/`Nat`
(no overflow is possible in the embedded code paths); `float` values
are modelled as `Rat`.
-/

set_option maxRecDepth 8000

namespace DecloudValidator

/-! ### `src/config.py`: constants -/

/-- RPC endpoint table `RPC_ENDPOINTS` from `src/config.py`. -/
def RPC_ENDPOINTS : List (String × String) :=
  [("devnet", "https://api.devnet.solana.com"),
   ("mainnet", "https://api.mainnet-beta.solana.com"),
   ("testnet", "https://api.testnet.solana.com")]

/-- Dataset enum mapping `DATASETS` from `src/config.py`, in the
dict literal's insertion order. -/
def DATASETS : List (String × Nat) :=
  [("Cifar10", 0), ("Cifar100", 1), ("Mnist", 2), ("FashionMnist", 3), ("Emnist", 4),
   ("Kmnist", 5), ("Food101", 6), ("Flowers102", 7), ("StanfordDogs", 8), ("StanfordCars", 9),
   ("OxfordPets", 10), ("CatsVsDogs", 11), ("Eurosat", 12), ("Svhn", 13), ("Caltech101", 14),
   ("Caltech256", 15), ("Imdb", 16), ("Sst2", 17), ("Sst5", 18), ("YelpReviews", 19),
   ("AmazonPolarity", 20), ("RottenTomatoes", 21), ("FinancialSentiment", 22), ("TweetSentiment", 23),
   ("AgNews", 24), ("Dbpedia", 25), ("YahooAnswers", 26), ("TwentyNewsgroups", 27),
   ("SmsSpam", 28), ("HateSpeech", 29), ("CivilComments", 30), ("Toxicity", 31),
   ("ClincIntent", 32), ("Banking77", 33), ("SnipsIntent", 34), ("Conll2003", 35),
   ("Wnut17", 36), ("Squad", 37), ("SquadV2", 38), ("TriviaQa", 39), ("BoolQ", 40),
   ("CommonsenseQa", 41), ("Stsb", 42), ("Mrpc", 43), ("Qqp", 44), ("Snli", 45),
   ("Mnli", 46), ("CnnDailymail", 47), ("Xsum", 48), ("Samsum", 49), ("SpeechCommands", 50),
   ("Librispeech", 51), ("CommonVoice", 52), ("Gtzan", 53), ("Esc50", 54), ("Urbansound8k", 55),
   ("Nsynth", 56), ("Ravdess", 57), ("CremaD", 58), ("Iemocap", 59), ("Iris", 60),
   ("Wine", 61), ("Diabetes", 62), ("BreastCancer", 63), ("CaliforniaHousing", 64),
   ("AdultIncome", 65), ("BankMarketing", 66), ("CreditDefault", 67), ("Titanic", 68),
   ("HeartDisease", 69), ("ChestXray", 70), ("SkinCancer", 71), ("DiabeticRetinopathy", 72),
   ("BrainTumor", 73), ("Malaria", 74), ("BloodCells", 75), ("CovidXray", 76),
   ("PubmedQa", 77), ("MedQa", 78), ("Electricity", 79), ("Weather", 80), ("StockPrices", 81),
   ("EcgHeartbeat", 82), ("CodeSearchNet", 83), ("Humaneval", 84), ("Mbpp", 85),
   ("Spider", 86), ("Cora", 87), ("Citeseer", 88), ("Qm9", 89), ("NslKdd", 90),
   ("CreditCardFraud", 91), ("Phishing", 92), ("Movielens1m", 93), ("Movielens100k", 94),
   ("Xnli", 95), ("AmazonReviewsMulti", 96), ("Sberquad", 97)]

/-- Reverse mapping `DATASET_ID_TO_NAME = {v: k for k, v in DATASETS.items()}`
from `src/config.py`. -/
def DATASET_ID_TO_NAME : List (Nat × String) :=
  DATASETS.map (fun p => (p.2, p.1))

/-- C1: the catalog `DATASETS` has exactly 98 pairwise-distinct names whose
indices are exactly 0,...,97 in order (so pairwise distinct and covering
that range, with "Cifar10" at 0 and "Sberquad" at 97), and
`DATASET_ID_TO_NAME` is its two-sided inverse. -/
theorem C1_dataset_catalog :
    DATASETS.length = 98 ∧
    (DATASETS.map Prod.fst).Nodup ∧
    DATASETS.map Prod.snd = List.range 98 ∧
    DATASETS.lookup "Cifar10" = some 0 ∧
    DATASETS.lookup "Sberquad" = some 97 ∧
    (∀ p ∈ DATASETS, DATASET_ID_TO_NAME.lookup p.2 = some p.1) ∧
    (∀ q ∈ DATASET_ID_TO_NAME, DATASETS.lookup q.2 = some q.1) := by
  refine ⟨by decide, by decide, by decide, by decide, by decide, by decide, by decide⟩

/-! ### `src/config.py`: the `Config` class -/

/-- JSON values that can occur in the validator's flat config record. -/
inductive JVal where
  | null
  | jstr (s : String)
  | jbool (b : Bool)
  | jint (n : Int)
  | jlist (l : List String)
deriving DecidableEq, Repr

/-- A JSON object, as written by `json.dump` of a Python dict:
an association list in insertion order. -/
abbrev JObj := List (String × JVal)

/-- The `Config` class of `src/config.py`: its seven attributes. -/
structure Config where
  private_key : Option String
  network : String
  installed_datasets : List String
  auto_validate : Bool
  poll_interval : Int
  validation_batch_size : Int
  max_concurrent_validations : Int
deriving DecidableEq, Repr

/-- The attribute defaults assigned by `Config.__init__` before `_load` runs. -/
def Config.defaults : Config :=
  { private_key := none
    network := "mainnet"
    installed_datasets := []
    auto_validate := true
    poll_interval := 30
    validation_batch_size := 1000
    max_concurrent_validations := 3 }

/-- `data.get("private_key")`: `None` when the key is absent or maps to `null`. -/
def jgetStrOpt (d : JObj) (k : String) : Option String :=
  match d.lookup k with
  | some (JVal.jstr s) => some s
  | _ => none

/-- `data.get(k, default)` for a string-valued key. A stored value of an
unexpected JSON type falls back to the default; this branch is unreachable
for records produced by `Config.save`. -/
def jgetStrD (d : JObj) (k : String) (dflt : String) : String :=
  match d.lookup k with
  | some (JVal.jstr s) => s
  | _ => dflt

/-- `data.get(k, default)` for a string-list-valued key. -/
def jgetListD (d : JObj) (k : String) (dflt : List String) : List String :=
  match d.lookup k with
  | some (JVal.jlist l) => l
  | _ => dflt

/-- `data.get(k, default)` for a bool-valued key. -/
def jgetBoolD (d : JObj) (k : String) (dflt : Bool) : Bool :=
  match d.lookup k with
  | some (JVal.jbool b) => b
  | _ => dflt

/-- `data.get(k, default)` for an int-valued key. -/
def jgetIntD (d : JObj) (k : String) (dflt : Int) : Int :=
  match d.lookup k with
  | some (JVal.jint n) => n
  | _ => dflt

/-- `Config._load` of `src/config.py`, applied to the parsed JSON record:
every attribute is (re)assigned from `data.get` with the documented default. -/
def Config.loadFrom (d : JObj) : Config :=
  { private_key := jgetStrOpt d "private_key"
    network := jgetStrD d "network" "devnet"
    installed_datasets := jgetListD d "installed_datasets" []
    auto_validate := jgetBoolD d "auto_validate" true
    poll_interval := jgetIntD d "poll_interval" 30
    validation_batch_size := jgetIntD d "validation_batch_size" 1000
    max_concurrent_validations := jgetIntD d "max_concurrent_validations" 3 }

/-- `Config.save` of `src/config.py`: the JSON record written to the
config file, keys in the dict literal's order. -/
def Config.save (c : Config) : JObj :=
  [("private_key", match c.private_key with | some s => JVal.jstr s | none => JVal.null),
   ("network", JVal.jstr c.network),
   ("installed_datasets", JVal.jlist c.installed_datasets),
   ("auto_validate", JVal.jbool c.auto_validate),
   ("poll_interval", JVal.jint c.poll_interval),
   ("validation_batch_size", JVal.jint c.validation_batch_size),
   ("max_concurrent_validations", JVal.jint c.max_concurrent_validations)]

/-- `Config.__init__` of `src/config.py`: set the defaults, then run `_load`,
which overwrites every attribute only when the config file exists
(`file = none` models a missing `CONFIG_FILE`). -/
def mkConfig (file : Option JObj) : Config :=
  match file with
  | none => Config.defaults
  | some d => Config.loadFrom d

/-- `Config.rpc_url` of `src/config.py`:
`RPC_ENDPOINTS.get(self.network, RPC_ENDPOINTS["devnet"])`. -/
def Config.rpc_url (c : Config) : String :=
  (RPC_ENDPOINTS.lookup c.network).getD ((RPC_ENDPOINTS.lookup "devnet").getD "")

/-- `Config.is_dataset_installed` of `src/config.py`:
`dataset_name in self.installed_datasets`. -/
def Config.is_dataset_installed (c : Config) (dataset_name : String) : Bool :=
  c.installed_datasets.contains dataset_name

/-- The installed-check as the spec words it (`isDownloaded`): record marked
installed AND a presence check of the expected local path succeeds, where
`diskPresent` models which expected paths exist on disk. Stated from the
spec only, for comparison with `Config.is_dataset_installed`. -/
def isDownloadedSpec (c : Config) (diskPresent : String → Bool) (dataset_name : String) : Bool :=
  c.installed_datasets.contains dataset_name && diskPresent dataset_name

/-! ### Claims about `Config` -/

/-- C2 counterexample: with the dataset "Mnist" recorded as installed but the
expected path absent from disk (presence check false for every path), the
installed-check still returns true, and the record is returned unchanged —
contradicting the claim that a missing file makes the check return false
and flips the record back to not-installed. -/
theorem C2_counterexample :
    Config.is_dataset_installed
      { private_key := none, network := "mainnet", installed_datasets := ["Mnist"],
        auto_validate := true, poll_interval := 30, validation_batch_size := 1000,
        max_concurrent_validations := 3 } "Mnist" = true ∧
    isDownloadedSpec
      { private_key := none, network := "mainnet", installed_datasets := ["Mnist"],
        auto_validate := true, poll_interval := 30, validation_batch_size := 1000,
        max_concurrent_validations := 3 } (fun _ => false) "Mnist" = false := by
  decide

/-- C2 amended: the installed-check returns true exactly when the dataset name
is in the installed record; the filesystem is never consulted and the record
is never modified (the operation is a pure membership test). -/
theorem C2_installed_check (c : Config) (name : String) :
    c.is_dataset_installed name = true ↔ name ∈ c.installed_datasets := by
  simp [Config.is_dataset_installed]

/-- C2 amended, witness. -/
theorem C2_installed_check_witness :
    Config.is_dataset_installed
      { private_key := none, network := "mainnet", installed_datasets := ["Mnist"],
        auto_validate := true, poll_interval := 30, validation_batch_size := 1000,
        max_concurrent_validations := 3 } "Mnist" = true :=
  (C2_installed_check
      { private_key := none, network := "mainnet", installed_datasets := ["Mnist"],
        auto_validate := true, poll_interval := 30, validation_batch_size := 1000,
        max_concurrent_validations := 3 } "Mnist").mpr (by decide)

/-- C7: saving and re-loading restores exactly the seven persisted fields,
and the persisted record's keys are exactly those seven. -/
theorem C7_config_roundtrip (c : Config) :
    Config.loadFrom (Config.save c) = c ∧
    (Config.save c).map Prod.fst =
      ["private_key", "network", "installed_datasets", "auto_validate",
       "poll_interval", "validation_batch_size", "max_concurrent_validations"] := by
  obtain ⟨pk, nw, ds, av, pi, vb, mc⟩ := c
  cases pk <;>
    simp [Config.save, Config.loadFrom, jgetStrOpt, jgetStrD, jgetListD,
      jgetBoolD, jgetIntD, List.lookup]

/-- C8: `rpc_url` returns the devnet endpoint for every network name outside
the three known ones, and the matching endpoint for the three known names. -/
theorem C8_rpc_url_fallback (c : Config) :
    (c.network ∉ ["devnet", "mainnet", "testnet"] →
      c.rpc_url = "https://api.devnet.solana.com") ∧
    (c.network = "devnet" → c.rpc_url = "https://api.devnet.solana.com") ∧
    (c.network = "mainnet" → c.rpc_url = "https://api.mainnet-beta.solana.com") ∧
    (c.network = "testnet" → c.rpc_url = "https://api.testnet.solana.com") := by
  constructor
  · intro h
    simp only [List.mem_cons, List.not_mem_nil, or_false, not_or] at h
    obtain ⟨h1, h2, h3⟩ := h
    have e1 : (c.network == "devnet") = false := by simp [h1]
    have e2 : (c.network == "mainnet") = false := by simp [h2]
    have e3 : (c.network == "testnet") = false := by simp [h3]
    simp [Config.rpc_url, RPC_ENDPOINTS, List.lookup, e1, e2, e3]
  refine ⟨fun h => ?_, fun h => ?_, fun h => ?_⟩ <;>
    simp [Config.rpc_url, RPC_ENDPOINTS, List.lookup, h]

/-- C8, witness. -/
theorem C8_rpc_url_fallback_witness :
    Config.rpc_url
      { private_key := none, network := "sol", installed_datasets := [],
        auto_validate := true, poll_interval := 30, validation_batch_size := 1000,
        max_concurrent_validations := 3 } = "https://api.devnet.solana.com" :=
  (C8_rpc_url_fallback
      { private_key := none, network := "sol", installed_datasets := [],
        auto_validate := true, poll_interval := 30, validation_batch_size := 1000,
        max_concurrent_validations := 3 }).1 (by decide)

/-- C9: a `Config` constructed with no config file present defaults to
network "mainnet", while loading an existing record that lacks the
"network" key yields network "devnet" — the two defaults disagree. -/
theorem C9_default_network_mismatch :
    (mkConfig none).network = "mainnet" ∧
    (∀ d : JObj, d.lookup "network" = none → (mkConfig (some d)).network = "devnet") := by
  refine ⟨rfl, fun d h => ?_⟩
  simp [mkConfig, Config.loadFrom, jgetStrD, h]

/-- C9, witness: the empty record lacks the "network" key. -/
theorem C9_default_network_mismatch_witness :
    (mkConfig (some [])).network = "devnet" :=
  C9_default_network_mismatch.2 [] (by decide)

/-! ### `src/decloud/cli.py`: rounds and the abort command -/

/-- A round snapshot as consumed by the CLI (`validator.get_all_rounds()`). -/
structure Round where
  id : Nat
  status : String
  dataset : String
  reward_amount : Nat
  trainers_count : Nat
  submissions_count : Nat
  creator : String
  validator : String
deriving DecidableEq, Repr

/-- The three statuses `cmd_abort` accepts:
`("waitingTrainers", "training", "validating")`. -/
def abortableStatuses : List String :=
  ["waitingTrainers", "training", "validating"]

/-- `cmd_abort` of `src/decloud/cli.py`. Inputs: the stored private key
(`config.private_key`), the caller's public key after login
(`validator.public_key`), the fetched round list and the requested round id.
Output: the exit code paired with the submitted abort instruction, if any
(`validator.abort_round(round_id, round_data.creator)`); `none` means no
instruction was submitted. -/
def cmd_abort (private_key : Option String) (callerKey : String)
    (rounds : List Round) (round_id : Nat) : Nat × Option (Nat × String) :=
  match private_key with
  | none => (1, none)
  | some _ =>
    match rounds.find? (fun r => r.id == round_id) with
    | none => (1, none)
    | some r =>
      if r.validator != callerKey then (1, none)
      else if !(abortableStatuses.contains r.status) then (1, none)
      else (0, some (round_id, r.creator))

/-- C3 counterexample: a round already in terminal status "cancelled", aborted
by its own validator, yields exit code 1 and no submitted instruction — an
error, not the idempotent no-op success the claim states. -/
theorem C3_counterexample :
    cmd_abort (some "key") "VAL"
      [{ id := 7, status := "cancelled", dataset := "Mnist", reward_amount := 5,
         trainers_count := 2, submissions_count := 2, creator := "CRE",
         validator := "VAL" }] 7 = (1, none) := by
  decide

/-- C3 amended: invoking abort on a round whose status is terminal (in
particular "cancelled") is rejected with exit code 1 and no abort
instruction is submitted, even when the caller is the round's validator —
not a success no-op. -/
theorem C3_abort_terminal_rejected (key callerKey : String) (rounds : List Round)
    (round_id : Nat) (r : Round)
    (hfind : rounds.find? (fun x => x.id == round_id) = some r)
    (hval : r.validator = callerKey)
    (hterm : r.status ∈ ["completed", "cancelled", "expired"]) :
    cmd_abort (some key) callerKey rounds round_id = (1, none) := by
  have hmem : r.status ∉ abortableStatuses := by
    simp only [List.mem_cons, List.not_mem_nil, or_false] at hterm
    rcases hterm with h | h | h <;> simp [abortableStatuses, h]
  simp [cmd_abort, hfind, hval, hmem]

/-- C3 amended, witness. -/
theorem C3_abort_terminal_rejected_witness :
    cmd_abort (some "key") "VAL"
      [{ id := 9, status := "completed", dataset := "Iris", reward_amount := 1,
         trainers_count := 1, submissions_count := 1, creator := "CRE",
         validator := "VAL" }] 9 = (1, none) :=
  C3_abort_terminal_rejected "key" "VAL"
    [{ id := 9, status := "completed", dataset := "Iris", reward_amount := 1,
       trainers_count := 1, submissions_count := 1, creator := "CRE",
       validator := "VAL" }] 9
    { id := 9, status := "completed", dataset := "Iris", reward_amount := 1,
      trainers_count := 1, submissions_count := 1, creator := "CRE",
      validator := "VAL" }
    (by decide) (by decide) (by decide)

/-- C4: for every round found for the requested id, the abort is rejected
with exit code 1 and no instruction submitted whenever the caller is not
the round's validator or the status is not one of the three abortable
states; the abort instruction is submitted (with exit code 0) exactly when
the caller is the validator and the status is abortable. -/
theorem C4_abort_guards (key callerKey : String) (rounds : List Round)
    (round_id : Nat) (r : Round)
    (hfind : rounds.find? (fun x => x.id == round_id) = some r) :
    (r.validator ≠ callerKey ∨ r.status ∉ abortableStatuses →
      cmd_abort (some key) callerKey rounds round_id = (1, none)) ∧
    (r.validator = callerKey ∧ r.status ∈ abortableStatuses →
      cmd_abort (some key) callerKey rounds round_id = (0, some (round_id, r.creator))) := by
  constructor
  · rintro (hv | hs)
    · simp [cmd_abort, hfind, hv]
    · by_cases hv : r.validator = callerKey
      · simp [cmd_abort, hfind, hv, hs]
      · simp [cmd_abort, hfind, hv]
  · rintro ⟨hv, hs⟩
    simp [cmd_abort, hfind, hv, hs]

/-- C4, witness: an authorization failure submits nothing, and a validator
abort of a "training" round submits the instruction. -/
theorem C4_abort_guards_witness :
    cmd_abort (some "key") "OTHER"
      [{ id := 42, status := "training", dataset := "Cifar10", reward_amount := 5,
         trainers_count := 3, submissions_count := 1, creator := "CRE",
         validator := "VAL" }] 42 = (1, none) ∧
    cmd_abort (some "key") "VAL"
      [{ id := 42, status := "training", dataset := "Cifar10", reward_amount := 5,
         trainers_count := 3, submissions_count := 1, creator := "CRE",
         validator := "VAL" }] 42 = (0, some (42, "CRE")) :=
  ⟨(C4_abort_guards "key" "OTHER"
      [{ id := 42, status := "training", dataset := "Cifar10", reward_amount := 5,
         trainers_count := 3, submissions_count := 1, creator := "CRE",
         validator := "VAL" }] 42
      { id := 42, status := "training", dataset := "Cifar10", reward_amount := 5,
        trainers_count := 3, submissions_count := 1, creator := "CRE",
        validator := "VAL" }
      (by decide)).1 (Or.inl (by decide)),
   (C4_abort_guards "key" "VAL"
      [{ id := 42, status := "training", dataset := "Cifar10", reward_amount := 5,
         trainers_count := 3, submissions_count := 1, creator := "CRE",
         validator := "VAL" }] 42
      { id := 42, status := "training", dataset := "Cifar10", reward_amount := 5,
        trainers_count := 3, submissions_count := 1, creator := "CRE",
        validator := "VAL" }
      (by decide)).2 ⟨rfl, by decide⟩⟩

/-! ### `src/decloud/cli.py`: `cmd_validate_start` -/

/-- Python truthiness of an optional string: `None` and `""` are falsy. -/
def pyStrTruthy : Option String → Bool
  | none => false
  | some s => !s.isEmpty

/-- The key-source chain of `cmd_validate_start`:
`args.private_key or config.private_key or os.getenv("DECLOUD_PRIVATE_KEY")`. -/
def pickPrivateKey (cliKey cfgKey envKey : Option String) : Option String :=
  if pyStrTruthy cliKey then cliKey
  else if pyStrTruthy cfgKey then cfgKey
  else envKey

/-- Observable outcome of `cmd_validate_start`: the exit code and which of the
subsequent steps (constructing the `Validator`, attempting login, starting
the engine loop via `validator.start()`) were reached. -/
structure StartOutcome where
  exit : Nat
  validatorConstructed : Bool
  loginAttempted : Bool
  engineStarted : Bool
deriving DecidableEq, Repr

/-- `cmd_validate_start` of `src/decloud/cli.py`, after the CLI filter
arguments have been applied to the config: resolve the private key from the
three sources, fail with exit 1 when the result is falsy, otherwise
construct the validator, attempt login (exit 1 on failure), and start the
engine loop. -/
def cmd_validate_start (cliKey cfgKey envKey : Option String) (loginOk : Bool) : StartOutcome :=
  let private_key := pickPrivateKey cliKey cfgKey envKey
  if !(pyStrTruthy private_key) then
    { exit := 1, validatorConstructed := false, loginAttempted := false, engineStarted := false }
  else if !loginOk then
    { exit := 1, validatorConstructed := true, loginAttempted := true, engineStarted := false }
  else
    { exit := 0, validatorConstructed := true, loginAttempted := true, engineStarted := true }

/-- C5: when no private key is available from any of the three sources (CLI
argument, stored config, environment variable — each absent or empty),
`cmd_validate_start` exits with code 1 before any validator is constructed,
login is attempted, or the engine loop starts. -/
theorem C5_missing_key_fatal (cliKey cfgKey envKey : Option String) (loginOk : Bool)
    (hcli : pyStrTruthy cliKey = false) (hcfg : pyStrTruthy cfgKey = false)
    (henv : pyStrTruthy envKey = false) :
    cmd_validate_start cliKey cfgKey envKey loginOk =
      { exit := 1, validatorConstructed := false, loginAttempted := false,
        engineStarted := false } := by
  simp [cmd_validate_start, pickPrivateKey, hcli, hcfg, henv]

/-- C5, witness: all three sources absent. -/
theorem C5_missing_key_fatal_witness :
    cmd_validate_start none none none true =
      { exit := 1, validatorConstructed := false, loginAttempted := false,
        engineStarted := false } :=
  C5_missing_key_fatal none none none true rfl rfl rfl

/-! ### `src/decloud/cli.py`: CLI reward-filter overrides -/

/-- The reward-filter fields of the engine config that `cmd_validate_start`
may override from CLI arguments. -/
structure FilterConfig where
  min_reward : Rat
  max_reward : Rat
deriving DecidableEq, Repr

/-- The CLI-argument application in `cmd_validate_start`:
`if args.min_reward: config.min_reward = args.min_reward` and likewise for
`max_reward`; an absent argument is `None` (falsy) and a present value is
truthy exactly when nonzero. -/
def applyRewardArgs (cfg : FilterConfig) (argMin argMax : Option Rat) : FilterConfig :=
  let c1 := match argMin with
    | some v => if v != 0 then { cfg with min_reward := v } else cfg
    | none => cfg
  match argMax with
  | some v => if v != 0 then { c1 with max_reward := v } else c1
  | none => c1

/-- C10: a CLI reward filter of 0 is falsy and leaves the stored config value
in effect, while any nonzero CLI value overrides the stored one. -/
theorem C10_zero_reward_args (cfg : FilterConfig) :
    applyRewardArgs cfg (some 0) (some 0) = cfg ∧
    (∀ v : Rat, v ≠ 0 → (applyRewardArgs cfg (some v) none).min_reward = v) ∧
    (∀ v : Rat, v ≠ 0 → (applyRewardArgs cfg none (some v)).max_reward = v) := by
  refine ⟨by simp [applyRewardArgs], fun v hv => ?_, fun v hv => ?_⟩ <;>
    simp [applyRewardArgs, hv]

/-- C10, witness: zero arguments leave a stored filter of [5, 100] unchanged,
and a nonzero argument of 2 overrides the minimum. -/
theorem C10_zero_reward_args_witness :
    applyRewardArgs { min_reward := 5, max_reward := 100 } (some 0) (some 0) =
      { min_reward := 5, max_reward := 100 } ∧
    (applyRewardArgs { min_reward := 5, max_reward := 100 } (some 2) none).min_reward = 2 :=
  ⟨(C10_zero_reward_args { min_reward := 5, max_reward := 100 }).1,
   (C10_zero_reward_args { min_reward := 5, max_reward := 100 }).2.1 2 (by norm_num)⟩

/-! ### `src/decloud/cli.py`: `cmd_config_set` -/

/-- A Python attribute value of the config object, tagged by its type. -/
inductive CVal where
  | vbool (b : Bool)
  | vint (n : Int)
  | vfloat (q : Rat)
  | vstr (s : String)
  | vnone
  | vlist (l : List String)
deriving DecidableEq, Repr

/-- The config object's attributes, as probed by `hasattr`/`getattr`. -/
abbrev AttrMap := List (String × CVal)

/-- Python `str.lower` on the ASCII strings the CLI deals in. -/
def pyLower (s : String) : String := s.map Char.toLower

/-- Decimal parse modelling Python's `float` builtin on the inputs the CLI
feeds it: an optional sign and digits, optionally followed by a dot and
fraction digits; `none` models the `ValueError` the builtin raises. -/
def pyParseFloat (s : String) : Option Rat :=
  match s.splitOn "." with
  | [a] => (a.toInt?).map (fun i => (i : Rat))
  | [a, b] =>
    match a.toInt?, b.toNat? with
    | some i, some f =>
      let sign : Rat := if a.startsWith "-" then -1 else 1
      some ((i : Rat) + sign * (f : Rat) / ((10 : Rat) ^ b.length))
    | _, _ => none
  | _ => none

/-- The type-directed coercion in `cmd_config_set`: by the current attribute
value's type — bool: `value.lower() in ("true", "1", "yes")`; int and
float: numeric parse (`none` models the uncaught `ValueError`); any other
type: the raw string is stored unchanged. -/
def coerceConfigValue : CVal → String → Option CVal
  | CVal.vbool _, v => some (CVal.vbool ((["true", "1", "yes"]).contains (pyLower v)))
  | CVal.vint _, v => (v.toInt?).map CVal.vint
  | CVal.vfloat _, v => (pyParseFloat v).map CVal.vfloat
  | _, v => some (CVal.vstr v)

/-- `setattr(config, key, value)`: replace the attribute's value. -/
def setAttr (cfg : AttrMap) (key : String) (v : CVal) : AttrMap :=
  cfg.map (fun p => if p.1 == key then (p.1, v) else p)

/-- Observable outcome of `cmd_config_set`: exit code (`none` models an
uncaught parse exception), resulting attributes, and whether
`config.save()` ran. -/
structure SetOutcome where
  exit : Option Nat
  cfg : AttrMap
  saved : Bool
deriving DecidableEq, Repr

/-- `cmd_config_set` of `src/decloud/cli.py`: unknown keys (`hasattr` false)
report an error and exit 1 without touching the config; known keys have the
string value coerced by the attribute's current type, stored, and saved. -/
def cmd_config_set (cfg : AttrMap) (key value : String) : SetOutcome :=
  match cfg.lookup key with
  | none => { exit := some 1, cfg := cfg, saved := false }
  | some cur =>
    match coerceConfigValue cur value with
    | none => { exit := none, cfg := cfg, saved := false }
    | some v => { exit := some 0, cfg := setAttr cfg key v, saved := true }

/-- C6: an unknown key yields exit code 1 with the config unmodified and not
saved; a known bool-typed key stores `value.lower() in ("true","1","yes")`
and saves; known int- and float-typed keys store the numeric parse of the
value and save. -/
theorem C6_config_set (cfg : AttrMap) (key value : String) :
    (cfg.lookup key = none →
      cmd_config_set cfg key value = { exit := some 1, cfg := cfg, saved := false }) ∧
    (∀ b : Bool, cfg.lookup key = some (CVal.vbool b) →
      cmd_config_set cfg key value =
        { exit := some 0,
          cfg := setAttr cfg key (CVal.vbool ((["true", "1", "yes"]).contains (pyLower value))),
          saved := true }) ∧
    (∀ n i : Int, cfg.lookup key = some (CVal.vint n) → value.toInt? = some i →
      cmd_config_set cfg key value =
        { exit := some 0, cfg := setAttr cfg key (CVal.vint i), saved := true }) ∧
    (∀ q r : Rat, cfg.lookup key = some (CVal.vfloat q) → pyParseFloat value = some r →
      cmd_config_set cfg key value =
        { exit := some 0, cfg := setAttr cfg key (CVal.vfloat r), saved := true }) := by
  refine ⟨fun h => ?_, fun b h => ?_, fun n i h hi => ?_, fun q r h hr => ?_⟩ <;>
    simp [cmd_config_set, coerceConfigValue, h, *]

/-- C6, witness: an unknown key leaves a two-attribute config untouched, and
setting the bool attribute "auto_validate" to "Yes" coerces and saves. -/
theorem C6_config_set_witness :
    cmd_config_set [("auto_validate", CVal.vbool true), ("poll_interval", CVal.vint 30)]
        "bogus" "x" =
      { exit := some 1,
        cfg := [("auto_validate", CVal.vbool true), ("poll_interval", CVal.vint 30)],
        saved := false } ∧
    cmd_config_set [("auto_validate", CVal.vbool true), ("poll_interval", CVal.vint 30)]
        "auto_validate" "Yes" =
      { exit := some 0,
        cfg := setAttr [("auto_validate", CVal.vbool true), ("poll_interval", CVal.vint 30)]
          "auto_validate" (CVal.vbool ((["true", "1", "yes"]).contains (pyLower "Yes"))),
        saved := true } :=
  ⟨(C6_config_set [("auto_validate", CVal.vbool true), ("poll_interval", CVal.vint 30)]
      "bogus" "x").1 (by decide),
   (C6_config_set [("auto_validate", CVal.vbool true), ("poll_interval", CVal.vint 30)]
      "auto_validate" "Yes").2.1 true (by decide)⟩

end DecloudValidator
